import Mathlib

set_option maxRecDepth 100000

/-!
Verification development for the Keenetic router Telegram monitor
(src/main.py).  The definitions below are a shallow embedding of the
functions of the source file: pure computations are translated directly,
HTTP interaction is modelled by passing the observed response as an
explicit argument, and the global mutable state (ACTIVE_CLIENTS,
PREV_STATUS) is threaded explicitly.
-/

/- ## Byte and word helpers for the hash primitives (hashlib.md5 / hashlib.sha256) -/

/-- Left-rotation of a 32-bit word. -/
def rotl32 (x n : Nat) : Nat :=
  (Nat.lor (Nat.shiftLeft x n) (Nat.shiftRight x (32 - n))) % 4294967296

/-- Right-rotation of a 32-bit word. -/
def rotr32 (x n : Nat) : Nat :=
  Nat.lor (Nat.shiftRight x n) ((Nat.shiftLeft x (32 - n)) % 4294967296)

/-- Bitwise complement within 32 bits. -/
def natNot32 (x : Nat) : Nat := Nat.xor x 4294967295

/-- UTF-8 encoding of one character (Python str.encode). -/
def utf8Char (c : Char) : List Nat :=
  let n := c.toNat
  if n < 128 then [n]
  else if n < 2048 then [192 + n / 64, 128 + n % 64]
  else if n < 65536 then [224 + n / 4096, 128 + (n / 64) % 64, 128 + n % 64]
  else [240 + n / 262144, 128 + (n / 4096) % 64, 128 + (n / 64) % 64, 128 + n % 64]

/-- UTF-8 encoding of a string as a byte list (Python str.encode). -/
def utf8Encode (s : String) : List Nat :=
  s.data.foldr (fun c acc => utf8Char c ++ acc) []

/-- Little-endian packing of bytes into 32-bit words. -/
def leWords : List Nat → List Nat
  | b0 :: b1 :: b2 :: b3 :: rest =>
      (b0 + 256 * b1 + 65536 * b2 + 16777216 * b3) :: leWords rest
  | _ => []

/-- Big-endian packing of bytes into 32-bit words. -/
def beWords : List Nat → List Nat
  | b0 :: b1 :: b2 :: b3 :: rest =>
      (16777216 * b0 + 65536 * b1 + 256 * b2 + b3) :: beWords rest
  | _ => []

/-- Little-endian bytes of a 32-bit word. -/
def leBytes4 (w : Nat) : List Nat :=
  [w % 256, w / 256 % 256, w / 65536 % 256, w / 16777216 % 256]

/-- Big-endian bytes of a 32-bit word. -/
def beBytes4 (w : Nat) : List Nat :=
  [w / 16777216 % 256, w / 65536 % 256, w / 256 % 256, w % 256]

/-- Little-endian bytes of a 64-bit word. -/
def leBytes8 (w : Nat) : List Nat :=
  leBytes4 (w % 4294967296) ++ leBytes4 (w / 4294967296 % 4294967296)

/-- Big-endian bytes of a 64-bit word. -/
def beBytes8 (w : Nat) : List Nat :=
  beBytes4 (w / 4294967296 % 4294967296) ++ beBytes4 (w % 4294967296)

/-- Number of zero padding bytes used by the MD5 / SHA-256 length padding. -/
def padZeros (len : Nat) : Nat := (120 - (len + 1) % 64) % 64

/-- MD5 message padding (little-endian 64-bit bit count). -/
def md5Pad (msg : List Nat) : List Nat :=
  msg ++ [128] ++ List.replicate (padZeros msg.length) 0 ++ leBytes8 (msg.length * 8)

/-- SHA-256 message padding (big-endian 64-bit bit count). -/
def shaPad (msg : List Nat) : List Nat :=
  msg ++ [128] ++ List.replicate (padZeros msg.length) 0 ++ beBytes8 (msg.length * 8)

/-- Split a byte list into 64-byte blocks (fuelled by the block count). -/
def chunksAux : Nat → List Nat → List (List Nat)
  | 0, _ => []
  | n + 1, l => l.take 64 :: chunksAux n (l.drop 64)

/-- The 64-byte blocks of a padded message. -/
def chunks64 (l : List Nat) : List (List Nat) := chunksAux (l.length / 64) l

/- ## MD5 (RFC 1321), as used by hashlib.md5 in keen_auth -/

structure MD5State where
  a : Nat
  b : Nat
  c : Nat
  d : Nat

/-- The 64 MD5 sine-derived round constants. -/
def md5K : List Nat :=
  [3614090360, 3905402710, 606105819, 3250441966, 4118548399, 1200080426,
   2821735955, 4249261313, 1770035416, 2336552879, 4294925233, 2304563134,
   1804603682, 4254626195, 2792965006, 1236535329, 4129170786, 3225465664,
   643717713, 3921069994, 3593408605, 38016083, 3634488961, 3889429448,
   568446438, 3275163606, 4107603335, 1163531501, 2850285829, 4243563512,
   1735328473, 2368359562, 4294588738, 2272392833, 1839030562, 4259657740,
   2763975236, 1272893353, 4139469664, 3200236656, 681279174, 3936430074,
   3572445317, 76029189, 3654602809, 3873151461, 530742520, 3299628645,
   4096336452, 1126891415, 2878612391, 4237533241, 1700485571, 2399980690,
   4293915773, 2240044497, 1873313359, 4264355552, 2734768916, 1309151649,
   4149444226, 3174756917, 718787259, 3951481745]

/-- The 64 MD5 per-round rotation amounts. -/
def md5S : List Nat :=
  [7, 12, 17, 22, 7, 12, 17, 22, 7, 12, 17, 22, 7, 12, 17, 22,
   5, 9, 14, 20, 5, 9, 14, 20, 5, 9, 14, 20, 5, 9, 14, 20,
   4, 11, 16, 23, 4, 11, 16, 23, 4, 11, 16, 23, 4, 11, 16, 23,
   6, 10, 15, 21, 6, 10, 15, 21, 6, 10, 15, 21, 6, 10, 15, 21]

/-- MD5 round function and message index for round i. -/
def md5F (i B C D : Nat) : Nat × Nat :=
  if i < 16 then (Nat.lor (Nat.land B C) (Nat.land (natNot32 B) D), i)
  else if i < 32 then (Nat.lor (Nat.land D B) (Nat.land (natNot32 D) C), (5 * i + 1) % 16)
  else if i < 48 then (Nat.xor (Nat.xor B C) D, (3 * i + 5) % 16)
  else (Nat.xor C (Nat.lor B (natNot32 D)), (7 * i) % 16)

/-- One MD5 round. -/
def md5Step (M : List Nat) (i : Nat) (st : MD5State) : MD5State :=
  let fg := md5F i st.b st.c st.d
  let F := (fg.1 + st.a + md5K.getD i 0 + M.getD fg.2 0) % 4294967296
  ⟨st.d, (st.b + rotl32 F (md5S.getD i 0)) % 4294967296, st.b, st.c⟩

/-- The fuelled MD5 round loop. -/
def md5Rounds (M : List Nat) : Nat → Nat → MD5State → MD5State
  | _, 0, st => st
  | i, fuel + 1, st => md5Rounds M (i + 1) fuel (md5Step M i st)

/-- MD5 compression of one 64-byte block. -/
def md5Block (st : MD5State) (block : List Nat) : MD5State :=
  let M := leWords block
  let r := md5Rounds M 0 64 st
  ⟨(st.a + r.a) % 4294967296, (st.b + r.b) % 4294967296,
   (st.c + r.c) % 4294967296, (st.d + r.d) % 4294967296⟩

/-- MD5 digest of a byte list. -/
def md5Bytes (msg : List Nat) : List Nat :=
  let st := (chunks64 (md5Pad msg)).foldl md5Block
    ⟨1732584193, 4023233417, 2562383102, 271733878⟩
  leBytes4 st.a ++ leBytes4 st.b ++ leBytes4 st.c ++ leBytes4 st.d

/-- One lowercase hexadecimal digit. -/
def hexDigit (n : Nat) : Char := Char.ofNat (if n < 10 then 48 + n else 87 + n)

/-- Lowercase hexadecimal rendering of a byte list (hexdigest). -/
def bytesToHex (l : List Nat) : String :=
  ⟨l.foldr (fun b acc => hexDigit (b / 16) :: hexDigit (b % 16) :: acc) []⟩

/-- hashlib.md5(s.encode()).hexdigest() -/
def md5hex (s : String) : String := bytesToHex (md5Bytes (utf8Encode s))

/- ## SHA-256 (FIPS 180-4), as used by hashlib.sha256 in keen_auth -/

structure SHAState where
  a : Nat
  b : Nat
  c : Nat
  d : Nat
  e : Nat
  f : Nat
  g : Nat
  h : Nat

/-- The 64 SHA-256 round constants. -/
def shaK : List Nat :=
  [1116352408, 1899447441, 3049323471, 3921009573, 961987163, 1508970993,
   2453635748, 2870763221, 3624381080, 310598401, 607225278, 1426881987,
   1925078388, 2162078206, 2614888103, 3248222580, 3835390401, 4022224774,
   264347078, 604807628, 770255983, 1249150122, 1555081692, 1996064986,
   2554220882, 2821834349, 2952996808, 3210313671, 3336571891, 3584528711,
   113926993, 338241895, 666307205, 773529912, 1294757372, 1396182291,
   1695183700, 1986661051, 2177026350, 2456956037, 2730485921, 2820302411,
   3259730800, 3345764771, 3516065817, 3600352804, 4094571909, 275423344,
   430227734, 506948616, 659060556, 883997877, 958139571, 1322822218,
   1537002063, 1747873779, 1955562222, 2024104815, 2227730452, 2361852424,
   2428436474, 2756734187, 3204031479, 3329325298]

/-- Message schedule extension (fuelled: 48 extra words). -/
def shaExtend : Nat → List Nat → List Nat
  | 0, W => W
  | fuel + 1, W =>
      let i := W.length
      let w15 := W.getD (i - 15) 0
      let w2 := W.getD (i - 2) 0
      let s0 := Nat.xor (Nat.xor (rotr32 w15 7) (rotr32 w15 18)) (Nat.shiftRight w15 3)
      let s1 := Nat.xor (Nat.xor (rotr32 w2 17) (rotr32 w2 19)) (Nat.shiftRight w2 10)
      shaExtend fuel (W ++ [(W.getD (i - 16) 0 + s0 + W.getD (i - 7) 0 + s1) % 4294967296])

/-- One SHA-256 round. -/
def shaStep (W : List Nat) (i : Nat) (st : SHAState) : SHAState :=
  let S1 := Nat.xor (Nat.xor (rotr32 st.e 6) (rotr32 st.e 11)) (rotr32 st.e 25)
  let ch := Nat.xor (Nat.land st.e st.f) (Nat.land (natNot32 st.e) st.g)
  let temp1 := (st.h + S1 + ch + shaK.getD i 0 + W.getD i 0) % 4294967296
  let S0 := Nat.xor (Nat.xor (rotr32 st.a 2) (rotr32 st.a 13)) (rotr32 st.a 22)
  let maj := Nat.xor (Nat.xor (Nat.land st.a st.b) (Nat.land st.a st.c)) (Nat.land st.b st.c)
  let temp2 := (S0 + maj) % 4294967296
  ⟨(temp1 + temp2) % 4294967296, st.a, st.b, st.c,
   (st.d + temp1) % 4294967296, st.e, st.f, st.g⟩

/-- The fuelled SHA-256 round loop. -/
def shaRounds (W : List Nat) : Nat → Nat → SHAState → SHAState
  | _, 0, st => st
  | i, fuel + 1, st => shaRounds W (i + 1) fuel (shaStep W i st)

/-- SHA-256 compression of one 64-byte block. -/
def shaBlock (st : SHAState) (block : List Nat) : SHAState :=
  let W := shaExtend 48 (beWords block)
  let r := shaRounds W 0 64 st
  ⟨(st.a + r.a) % 4294967296, (st.b + r.b) % 4294967296,
   (st.c + r.c) % 4294967296, (st.d + r.d) % 4294967296,
   (st.e + r.e) % 4294967296, (st.f + r.f) % 4294967296,
   (st.g + r.g) % 4294967296, (st.h + r.h) % 4294967296⟩

/-- SHA-256 digest of a byte list. -/
def sha256Bytes (msg : List Nat) : List Nat :=
  let st := (chunks64 (shaPad msg)).foldl shaBlock
    ⟨1779033703, 3144134277, 1013904242, 2773480762,
     1359893119, 2600822924, 528734635, 1541459225⟩
  beBytes4 st.a ++ beBytes4 st.b ++ beBytes4 st.c ++ beBytes4 st.d ++
  beBytes4 st.e ++ beBytes4 st.f ++ beBytes4 st.g ++ beBytes4 st.h

/-- hashlib.sha256(s.encode()).hexdigest() -/
def sha256hex (s : String) : String := bytesToHex (sha256Bytes (utf8Encode s))

/-- The digest submitted by keen_auth (src/main.py lines 158 to 159):
outer SHA-256 of the challenge concatenated with the lowercase-hex MD5 of
login, realm and password joined by colons. -/
def authDigest (login password realm challenge : String) : String :=
  sha256hex (challenge ++ md5hex (login ++ ":" ++ realm ++ ":" ++ password))

/- ## String helpers modelling Python primitives -/

/-- Python s.split(sep) for a one-character separator, on character lists. -/
def splitOnChar (sep : Char) : List Char → List (List Char)
  | [] => [[]]
  | c :: rest =>
      let r := splitOnChar sep rest
      if c = sep then [] :: r
      else
        match r with
        | [] => [[c]]
        | g :: gs => (c :: g) :: gs

/-- Python str.isdigit restricted to ASCII digits. -/
def pyIsDigit (l : List Char) : Bool := !l.isEmpty && l.all Char.isDigit

/-- Numeric value of a digit list, as produced by Python int on a digit string. -/
def digitsVal (l : List Char) : Nat := l.foldl (fun a c => a * 10 + (c.toNat - 48)) 0

/-- Python whitespace stripped by int(). -/
def isPySpace (c : Char) : Bool := c = ' ' || c = '\t' || c = '\n' || c = '\r'

/-- Python int(s) on a string: optional surrounding whitespace, optional sign,
then decimal digits; any other shape raises ValueError (here: none). -/
def pyIntOfString (s : String) : Option Int :=
  let t := ((s.data.dropWhile isPySpace).reverse.dropWhile isPySpace).reverse
  match t with
  | '-' :: rest => if pyIsDigit rest then some (-(digitsVal rest : Int)) else none
  | '+' :: rest => if pyIsDigit rest then some ((digitsVal rest : Int)) else none
  | _ => if pyIsDigit t then some ((digitsVal t : Int)) else none

/- ## Data model: JSON field values and device records -/

/-- A JSON field that the code expects to be a string: either an actual
string or a value of another shape (on which str methods raise
AttributeError). -/
inductive JStr where
  | str (s : String)
  | nonstr
deriving DecidableEq

/-- One entry of the host array of the device-list response, restricted to
the fields the monitoring logic reads: mac, ip and active, each possibly
absent. -/
structure Device where
  mac : Option String
  ip : Option JStr
  active : Option Bool
deriving DecidableEq

/-- The ip_sort key of update_clients (src/main.py lines 189 to 194):
split the ip on dots, keep the digit-only components as numbers; a missing
ip defaults to the string 0.0.0.0 and a non-string ip yields (0,0,0,0)
through the except branch. -/
def ipKey (s : String) : List Nat :=
  ((splitOnChar '.' s.data).filter pyIsDigit).map digitsVal

def ip_sort (dev : Device) : List Nat :=
  match dev.ip with
  | none => ipKey "0.0.0.0"
  | some (JStr.str s) => ipKey s
  | some JStr.nonstr => [0, 0, 0, 0]

/-- Lexicographic comparison of Python tuples of integers. -/
def lexLe : List Nat → List Nat → Bool
  | [], _ => true
  | _ :: _, [] => false
  | a :: as, b :: bs =>
      if a < b then true
      else if b < a then false
      else lexLe as bs

/-- Sort order used by sorted(hosts, key=ip_sort). -/
def devLe (a b : Device) : Prop := lexLe (ip_sort a) (ip_sort b) = true

instance : DecidableRel devLe :=
  fun a b => decidable_of_iff (lexLe (ip_sort a) (ip_sort b) = true) Iff.rfl

/- ## Router Query Client: keen_get -/

/-- A network call issued by the client, with the payload it posts. -/
inductive NetCall where
  | getRci (path : String)
  | authProbe
  | authPost (login : String) (password : String)
deriving DecidableEq

/-- The observable behaviour of one HTTP GET: a transport error, or a
response with a status code and an optional parsed JSON body (none when
the body fails JSON parsing). -/
inductive HttpOutcome (α : Type) where
  | netError
  | ok (status : Nat) (body : Option α)
deriving DecidableEq

/-- keen_get (src/main.py lines 129 to 142): one GET to the rci endpoint;
raise_for_status raises for statuses 400 to 599 and the handler returns
the empty dict, a JSON decode error also returns the empty dict, any
transport error returns the empty dict.  The second component is the list
of network calls the function performs. -/
def keen_get {α : Type} (emptyDict : α) (path : String) (o : HttpOutcome α) :
    α × List NetCall :=
  (match o with
   | HttpOutcome.netError => emptyDict
   | HttpOutcome.ok status body =>
       if 400 ≤ status ∧ status < 600 then emptyDict
       else
         match body with
         | none => emptyDict
         | some j => j,
   [NetCall.getRci path])

/- ## Auth Session: keen_auth -/

/-- The environment a keen_auth call runs against: the probe GET either
raises, or yields a status with optional challenge headers; postStatus is
the status the POST would return (none when the POST raises). -/
inductive AuthEnv where
  | probeError
  | probe (status : Nat) (realm challenge : Option String) (postStatus : Option Nat)
deriving DecidableEq

/-- keen_auth (src/main.py lines 144 to 170), together with the list of
network calls it performs. -/
def keen_auth (login password : String) (env : AuthEnv) : Bool × List NetCall :=
  match env with
  | AuthEnv.probeError => (false, [NetCall.authProbe])
  | AuthEnv.probe status realm challenge postStatus =>
      if status = 200 then (true, [NetCall.authProbe])
      else if status = 401 then
        let r := realm.getD ""
        let c := challenge.getD ""
        if r == "" || c == "" then (false, [NetCall.authProbe])
        else
          let digest := authDigest login password r c
          match postStatus with
          | none => (false, [NetCall.authProbe, NetCall.authPost login digest])
          | some s2 => (s2 == 200, [NetCall.authProbe, NetCall.authPost login digest])
      else (false, [NetCall.authProbe])

/- ## Presence Store: update_clients -/

/-- The parsed device-list JSON dict, abstracted to the operations the code
performs on it: the value of the host key when present, and the number of
other keys (so dict truthiness is decidable). -/
structure DLJson where
  host : Option (List Device)
  otherKeys : Nat
deriving DecidableEq

/-- The empty dict returned by keen_get on failure. -/
def emptyDL : DLJson := ⟨none, 0⟩

/-- Python dict truthiness: a dict is falsy exactly when it has no keys. -/
def dlIsEmpty (d : DLJson) : Bool := d.host.isNone && d.otherKeys == 0

/-- update_clients (src/main.py lines 172 to 200): fetch the device list;
on falsy data or a falsy host array the store becomes empty, otherwise the
store becomes the host array sorted by the ip_sort key (Python sorted, a
stable sort). -/
def update_clients (o : HttpOutcome DLJson) : List Device :=
  let data := (keen_get emptyDL "device-list" o).1
  if dlIsEmpty data then []
  else
    let hosts := data.host.getD []
    if hosts.isEmpty then []
    else List.insertionSort devLe hosts

/-- The host array a fetch outcome carries (empty on failure or absence). -/
def hostsOf (o : HttpOutcome DLJson) : List Device :=
  ((keen_get emptyDL "device-list" o).1).host.getD []

/- ## Presence Monitor: check_status_change -/

/-- PREV_STATUS: mapping from mac to last observed active flag. -/
abbrev PrevMap := List (String × Bool)

/-- PREV_STATUS.get(mac). -/
def aget (m : PrevMap) (k : String) : Option Bool :=
  (m.find? (fun p => p.1 == k)).map (fun p => p.2)

/-- PREV_STATUS[mac] = v. -/
def aset : PrevMap → String → Bool → PrevMap
  | [], k, v => [(k, v)]
  | p :: rest, k, v => if p.1 == k then (k, v) :: rest else p :: aset rest k v

/-- A transition notification, identified by the device mac and the new
active value (true: connected banner, false: disconnected banner). -/
structure Event where
  mac : String
  current : Bool
deriving DecidableEq

/-- The body of one iteration of the device loop of check_status_change
(src/main.py lines 481 to 521) for a device whose mac is present: read the
prior entry, emit when it exists and differs, then store the current
value. -/
def stepDevice (prev : PrevMap) (mac : String) (d : Device) : Option Event × PrevMap :=
  let current := d.active.getD false
  let ev : Option Event :=
    match aget prev mac with
    | some p => if p != current then some ⟨mac, current⟩ else none
    | none => none
  (ev, aset prev mac current)

/-- Result of running the device loop of one cycle: the events emitted in
order, the final PREV_STATUS, and whether the loop was aborted by a
KeyError (a device without a mac key), which the cycle-level handler then
catches. -/
structure DiffResult where
  events : List Event
  prev : PrevMap
  errored : Bool
deriving DecidableEq

/-- The device loop of check_status_change: devices are processed in list
order; an entry without a mac raises KeyError, which aborts the loop there
(earlier updates and events stand, later devices are untouched). -/
def processDevices : List Device → PrevMap → DiffResult
  | [], prev => ⟨[], prev, false⟩
  | d :: ds, prev =>
      match d.mac with
      | none => ⟨[], prev, true⟩
      | some mac =>
          let s := stepDevice prev mac d
          let r := processDevices ds s.2
          ⟨s.1.toList ++ r.events, r.prev, r.errored⟩

/-- Everything one poll cycle of check_status_change produces. -/
structure CycleResult where
  clients : List Device
  events : List Event
  prev : PrevMap
  errored : Bool
deriving DecidableEq

/-- One cycle of check_status_change (src/main.py lines 478 to 523):
update_clients, then the device loop; the try block catches any exception
of the loop so the cycle always completes. -/
def check_status_change_cycle (o : HttpOutcome DLJson) (prev : PrevMap) : CycleResult :=
  let clients := update_clients o
  let r := processDevices clients prev
  ⟨clients, r.events, r.prev, r.errored⟩

/-- The monitor loop: each cycle runs to completion (errored or not) and
the loop continues with the PREV_STATUS the cycle left behind. -/
def run_cycles : PrevMap → List (HttpOutcome DLJson) → PrevMap
  | prev, [] => prev
  | prev, o :: os => run_cycles (check_status_change_cycle o prev).prev os

/- ## System stats: the memory accounting of start -/

/-- The system stats JSON, restricted to the fields the memory accounting
reads: the combined memory string and the separate memtotal and memfree
integers. -/
structure SysJson where
  memory : Option JStr
  memtotal : Option Int
  memfree : Option Int
deriving DecidableEq

/-- map(int, s.split('/')) unpacked into two values: exactly two slash
separated components, both parsing as Python ints; anything else raises
ValueError (here: none). -/
def parseMemPair (s : String) : Option (Int × Int) :=
  match (splitOnChar '/' s.data).map (fun cs => pyIntOfString ⟨cs⟩) with
  | [some a, some b] => some (a, b)
  | _ => none

/-- The memory figures computed by start (src/main.py lines 319 to 343):
used and total in MB and the usage percentage, plus whether the
memtotal/memfree fallback branch was taken.  Python float arithmetic is
modelled by exact rationals. -/
structure MemStats where
  used : ℚ
  total : ℚ
  percent : ℚ
  fromFallback : Bool
deriving DecidableEq

def memStats (sys : SysJson) : MemStats :=
  let mval := sys.memory.getD (JStr.str "0/0")
  let combined : Option (Int × Int) :=
    match mval with
    | JStr.str s => parseMemPair s
    | JStr.nonstr => none
  match combined with
  | some (u, t) =>
      ⟨(u : ℚ) / 1024, (t : ℚ) / 1024,
       if 0 < t then (u : ℚ) / (t : ℚ) * 100 else 0, false⟩
  | none =>
      let mt := sys.memtotal.getD 0
      let mf := sys.memfree.getD 0
      let mu := mt - mf
      ⟨(mu : ℚ) / 1024, (mt : ℚ) / 1024,
       if 0 < mt then (mu : ℚ) / (mt : ℚ) * 100 else 0, true⟩

/- ## Spec-side notion used to state the sorting claim -/

/-- Modelled from the spec: a well-formed IPv4 address string, four
dot-separated decimal components each at most 255. -/
def specWellFormedIp (s : String) : Bool :=
  let ps := splitOnChar '.' s.data
  ps.length == 4 && ps.all (fun x => pyIsDigit x && decide (digitsVal x ≤ 255))

/- ## Concrete inputs used by counterexamples and witnesses -/

/-- A valid non-empty device-list body, used to exhibit a 3xx response
whose body keen_get returns unchanged. -/
def c8body : DLJson := ⟨some [⟨some "aa", none, some true⟩], 0⟩

/-- The system stats of the worked memory example of the spec. -/
def c4sys : SysJson := ⟨some (JStr.str "255592/524288"), none, none⟩

/-- A device whose ip string is malformed (two components only). -/
def devMalformed : Device := ⟨some "aa", some (JStr.str "99.99"), some true⟩

/-- A device with a well-formed ip. -/
def devWellFormed : Device := ⟨some "bb", some (JStr.str "10.0.0.5"), some true⟩

/-- Two distinct host entries sharing the mac aa. -/
def dupA : Device := ⟨some "aa", some (JStr.str "10.0.0.5"), some true⟩

def dupB : Device := ⟨some "aa", some (JStr.str "10.0.0.7"), some false⟩

/- ## Helper lemmas -/

theorem lexLe_total : ∀ a b : List Nat, lexLe a b = true ∨ lexLe b a = true := by
  intro a
  induction a with
  | nil => intro b; left; rfl
  | cons x xs ih =>
    intro b
    cases b with
    | nil => right; rfl
    | cons y ys =>
      by_cases h1 : x < y
      · left; simp [lexLe, h1]
      · by_cases h2 : y < x
        · right; simp [lexLe, h2]
        · rcases ih ys with h | h
          · left; simp [lexLe, h1, h2, h]
          · right; simp [lexLe, h1, h2, h]

theorem lexLe_le_head (x y : Nat) (xs ys : List Nat)
    (h : lexLe (x :: xs) (y :: ys) = true) : x ≤ y := by
  by_cases h1 : x < y
  · omega
  · by_cases h2 : y < x
    · simp [lexLe, h1, h2] at h
    · omega

theorem lexLe_cons_of_eq (x : Nat) (xs ys : List Nat) :
    lexLe (x :: xs) (x :: ys) = lexLe xs ys := by
  simp [lexLe]

theorem lexLe_trans : ∀ a b c : List Nat,
    lexLe a b = true → lexLe b c = true → lexLe a c = true := by
  intro a
  induction a with
  | nil => intro b c h1 h2; rfl
  | cons x xs ih =>
    intro b c h1 h2
    cases b with
    | nil => simp [lexLe] at h1
    | cons y ys =>
      cases c with
      | nil => simp [lexLe] at h2
      | cons z zs =>
        have hxy := lexLe_le_head x y xs ys h1
        have hyz := lexLe_le_head y z ys zs h2
        by_cases hxz : x < z
        · simp [lexLe, hxz]
        · have hx : x = y := by omega
          have hy : y = z := by omega
          subst hx; subst hy
          rw [lexLe_cons_of_eq] at h1 h2 ⊢
          exact ih ys zs h1 h2

instance : IsTotal Device devLe := ⟨fun a b => lexLe_total (ip_sort a) (ip_sort b)⟩

instance : IsTrans Device devLe := ⟨fun _ _ _ h1 h2 => lexLe_trans _ _ _ h1 h2⟩

theorem aget_aset (m : PrevMap) (k : String) (v : Bool) :
    aget (aset m k v) k = some v := by
  induction m with
  | nil => simp [aset, aget, List.find?]
  | cons p rest ih =>
    by_cases h : p.1 == k
    · simp [aset, h, aget, List.find?]
    · simp only [aset, h, if_false, Bool.false_eq_true, ite_false]
      simpa [aget, List.find?, h] using ih

theorem processDevices_no_error (l : List Device) (prev : PrevMap)
    (h : ∀ d ∈ l, d.mac ≠ none) : (processDevices l prev).errored = false := by
  induction l generalizing prev with
  | nil => rfl
  | cons d ds ih =>
    have hd := h d (by simp)
    cases hm : d.mac with
    | none => exact absurd hm hd
    | some mac =>
      simp only [processDevices, hm]
      exact ih _ (fun x hx => h x (by simp [hx]))

theorem processDevices_break (good : List Device) (bad : Device) (rest : List Device)
    (prev : PrevMap) (hg : ∀ d ∈ good, d.mac ≠ none) (hb : bad.mac = none) :
    processDevices (good ++ bad :: rest) prev =
      ⟨(processDevices good prev).events, (processDevices good prev).prev, true⟩ := by
  induction good generalizing prev with
  | nil => simp [processDevices, hb]
  | cons d ds ih =>
    have hd := hg d (by simp)
    cases hm : d.mac with
    | none => exact absurd hm hd
    | some mac =>
      have ihh := ih ((stepDevice prev mac d).2) (fun x hx => hg x (by simp [hx]))
      simp only [List.cons_append, processDevices, hm, List.append_eq]
      rw [ihh]

theorem lexLe_zeros4 (a b c d : Nat) : lexLe [0, 0, 0, 0] [a, b, c, d] = true := by
  simp only [lexLe]
  split_ifs <;> first | rfl | omega

theorem ipKey_of_wellFormed (s : String) (h : specWellFormedIp s = true) :
    ∃ a b c d, ipKey s = [a, b, c, d] := by
  have h2 : (splitOnChar '.' s.data).length = 4 ∧
      ∀ x ∈ splitOnChar '.' s.data, pyIsDigit x = true ∧ digitsVal x ≤ 255 := by
    simpa [specWellFormedIp, List.all_eq_true] using h
  obtain ⟨hlen, hall⟩ := h2
  have hf : (splitOnChar '.' s.data).filter pyIsDigit = splitOnChar '.' s.data :=
    List.filter_eq_self.mpr (fun x hx => (hall x hx).1)
  unfold ipKey
  rw [hf]
  rcases hsp : splitOnChar '.' s.data with _ | ⟨a, _ | ⟨b, _ | ⟨c, _ | ⟨d, _ | _⟩⟩⟩⟩ <;>
    rw [hsp] at hlen <;> simp_all

/-- Both host-shape helpers: update_clients on a successful truthy fetch is a
permutation of the host array and is sorted by the ip_sort key. -/
theorem update_clients_ok_perm (hosts : List Device) (k : Nat) :
    (update_clients (HttpOutcome.ok 200 (some ⟨some hosts, k⟩))).Perm hosts ∧
    List.Sorted devLe (update_clients (HttpOutcome.ok 200 (some ⟨some hosts, k⟩))) := by
  cases hosts with
  | nil =>
    have h : update_clients (HttpOutcome.ok 200 (some ⟨some ([] : List Device), k⟩)) = [] := rfl
    rw [h]
    exact ⟨List.Perm.refl _, List.sorted_nil⟩
  | cons a as =>
    have h : update_clients (HttpOutcome.ok 200 (some ⟨some (a :: as), k⟩)) =
        List.insertionSort devLe (a :: as) := rfl
    rw [h]
    exact ⟨List.perm_insertionSort devLe (a :: as), List.sorted_insertionSort devLe (a :: as)⟩

/- ## Claim theorems -/

/-- Claim C1, counterexample: a keen_get call that observes a 401 response
returns the empty dict and its network trace is exactly the one GET request,
containing no authentication call, so no re-authentication attempt is
triggered by the 401. -/
theorem claim_C1_counterexample :
    (keen_get emptyDL "device-list" (HttpOutcome.ok 401 none)).1 = emptyDL ∧
    (keen_get emptyDL "device-list" (HttpOutcome.ok 401 none)).2 =
      [NetCall.getRci "device-list"] ∧
    NetCall.authProbe ∉ (keen_get emptyDL "device-list" (HttpOutcome.ok 401 none)).2 := by
  decide

/-- Claim C1, amended: keen_get never triggers re-authentication.  For every
path and observed outcome its network trace is exactly the single GET (no
auth probe and no auth POST), and a 401 response simply yields the empty
dict; keen_auth runs only where it is called explicitly (startup and the
start handler), never as a reaction to a 401 inside keen_get. -/
theorem claim_C1_amended :
    ∀ (α : Type) (emptyDict : α) (path : String) (o : HttpOutcome α),
      (keen_get emptyDict path o).2 = [NetCall.getRci path] ∧
      (∀ body, o = HttpOutcome.ok 401 body → (keen_get emptyDict path o).1 = emptyDict) := by
  intro α emptyDict path o
  refine ⟨rfl, ?_⟩
  rintro body rfl
  rfl

/-- Witness for the amended C1 at a concrete 401 response. -/
theorem claim_C1_witness :
    (keen_get emptyDL "device-list" (HttpOutcome.ok 401 (some c8body))).1 = emptyDL :=
  (claim_C1_amended DLJson emptyDL "device-list"
    (HttpOutcome.ok 401 (some c8body))).2 (some c8body) rfl

/-- Claim C2: for a device entry with a mac, the cycle loop processes it with
stepDevice and continues on the updated map; stepDevice emits an event iff a
prior entry for that mac exists and differs from the current active value;
the map entry is set to the current value regardless; and a first-ever
observation never emits. -/
theorem claim_C2 :
    ∀ (prev : PrevMap) (mac : String) (d : Device) (ds : List Device),
      d.mac = some mac →
      (processDevices (d :: ds) prev =
         ⟨(stepDevice prev mac d).1.toList ++
            (processDevices ds (stepDevice prev mac d).2).events,
          (processDevices ds (stepDevice prev mac d).2).prev,
          (processDevices ds (stepDevice prev mac d).2).errored⟩ ∧
       ((stepDevice prev mac d).1 ≠ none ↔
         ∃ p, aget prev mac = some p ∧ p ≠ d.active.getD false) ∧
       aget (stepDevice prev mac d).2 mac = some (d.active.getD false) ∧
       (aget prev mac = none → (stepDevice prev mac d).1 = none)) := by
  intro prev mac d ds hm
  refine ⟨by simp [processDevices, hm], ?_, ?_, ?_⟩
  · cases hp : aget prev mac with
    | none => simp [stepDevice, hp]
    | some p =>
      by_cases hc : p = d.active.getD false
      · subst hc; simp [stepDevice, hp]
      · simp [stepDevice, hp, hc, bne_iff_ne]
  · simp [stepDevice, aget_aset]
  · intro hp; simp [stepDevice, hp]

/-- Witness for C2 at a first-ever observation of mac aa. -/
theorem claim_C2_witness :
    aget (stepDevice [] "aa" ⟨some "aa", none, some true⟩).2 "aa" = some true ∧
    (stepDevice [] "aa" ⟨some "aa", none, some true⟩).1 = none :=
  ⟨(claim_C2 [] "aa" ⟨some "aa", none, some true⟩ [] rfl).2.2.1,
   (claim_C2 [] "aa" ⟨some "aa", none, some true⟩ [] rfl).2.2.2 rfl⟩

/-- Claim C3: a cycle whose fetch failed (keen_get returned the empty dict)
or whose host array is empty or absent leaves the store empty, emits no
event and leaves PREV_STATUS exactly unchanged; and a subsequent successful
cycle reporting a device whose active value equals its preserved map entry
emits no event. -/
theorem claim_C3 :
    ∀ (o : HttpOutcome DLJson) (prev : PrevMap),
      ((keen_get emptyDL "device-list" o).1 = emptyDL ∨ hostsOf o = []) →
      (check_status_change_cycle o prev = ⟨[], [], prev, false⟩ ∧
       ∀ (d : Device) (mac : String),
         d.mac = some mac →
         aget prev mac = some (d.active.getD false) →
         (check_status_change_cycle
             (HttpOutcome.ok 200 (some ⟨some [d], 0⟩)) prev).events = []) := by
  intro o prev h
  have huc : update_clients o = [] := by
    rcases h with h | h
    · simp only [update_clients]
      rw [h]
      rfl
    · simp only [update_clients]
      split
      · rfl
      · have h2 : ((keen_get emptyDL "device-list" o).1).host.getD [] = [] := h
        simp [h2]
  constructor
  · simp [check_status_change_cycle, huc, processDevices]
  · intro d mac hm ha
    have h1 : update_clients (HttpOutcome.ok 200 (some ⟨some [d], 0⟩)) = [d] := rfl
    simp [check_status_change_cycle, h1, processDevices, hm, stepDevice, ha]

/-- Witness for C3: a failed fetch with a populated map, then a successful
poll reporting the same active value. -/
theorem claim_C3_witness :
    check_status_change_cycle HttpOutcome.netError [("aa", true)] =
      ⟨[], [], [("aa", true)], false⟩ ∧
    (check_status_change_cycle
        (HttpOutcome.ok 200 (some ⟨some [⟨some "aa", none, some true⟩], 0⟩))
        [("aa", true)]).events = [] :=
  ⟨(claim_C3 HttpOutcome.netError [("aa", true)] (Or.inl rfl)).1,
   (claim_C3 HttpOutcome.netError [("aa", true)] (Or.inl rfl)).2
     ⟨some "aa", none, some true⟩ "aa" rfl rfl⟩

/-- Claim C4, counterexample: on the combined input 255592/524288 the
computed percentage is 798725/16384, about 48.7503, which differs from the
claimed 48.76 by more than half a hundredth, so it does not round to
48.76. -/
theorem claim_C4_counterexample :
    |(memStats c4sys).percent - 4876 / 100| > 1 / 200 := by
  have hp : parseMemPair "255592/524288" = some (255592, 524288) := by decide
  have h1 : (memStats c4sys).percent = (255592 : ℚ) / 524288 * 100 := by
    simp [memStats, c4sys, hp]
  rw [h1]
  have hneg : (255592 : ℚ) / 524288 * 100 - 4876 / 100 < 0 := by norm_num
  rw [abs_of_neg hneg]
  norm_num

/-- Claim C4, amended: the combined used/total string is parsed first and
the separate memtotal/memfree fields are consulted only when the memory
field is present but malformed or not a string (an absent field parses via
the default 0/0 without fallback, which still satisfies the only-when
direction); for the input 255592/524288 the results are used 255592/1024
(about 249.6 MB), total 512 MB and percent 798725/16384 (about 48.75, not
48.76). -/
theorem claim_C4_amended :
    (∀ sys : SysJson, (memStats sys).fromFallback = true →
        ∃ v, sys.memory = some v ∧ ∀ s, v = JStr.str s → parseMemPair s = none) ∧
    (memStats c4sys).fromFallback = false ∧
    (memStats c4sys).used = 255592 / 1024 ∧
    (memStats c4sys).total = 512 ∧
    (memStats c4sys).percent = 798725 / 16384 ∧
    |(memStats c4sys).used - 2496 / 10| < 1 / 200 ∧
    |(memStats c4sys).percent - 4875 / 100| < 1 / 200 := by
  have hp : parseMemPair "255592/524288" = some (255592, 524288) := by decide
  have hused : (memStats c4sys).used = (255592 : ℚ) / 1024 := by
    simp [memStats, c4sys, hp]
  have htot : (memStats c4sys).total = (524288 : ℚ) / 1024 := by
    simp [memStats, c4sys, hp]
  have hpct : (memStats c4sys).percent = (255592 : ℚ) / 524288 * 100 := by
    simp [memStats, c4sys, hp]
  have hfb : (memStats c4sys).fromFallback = false := by
    simp [memStats, c4sys, hp]
  refine ⟨?_, hfb, by rw [hused], by rw [htot]; norm_num, by rw [hpct]; norm_num, ?_, ?_⟩
  · intro sys h
    rcases hmem : sys.memory with _ | v
    · have h00 : parseMemPair "0/0" = some (0, 0) := by decide
      simp [memStats, hmem, h00] at h
    · cases v with
      | str s =>
        rcases hps : parseMemPair s with _ | pair
        · refine ⟨JStr.str s, rfl, ?_⟩
          intro s2 h2
          injection h2 with h3
          subst h3
          exact hps
        · obtain ⟨u, t⟩ := pair
          simp [memStats, hmem, hps] at h
      | nonstr => exact ⟨JStr.nonstr, rfl, fun s2 h2 => nomatch h2⟩
  · rw [hused]
    have hpos : (0 : ℚ) ≤ (255592 : ℚ) / 1024 - 2496 / 10 := by norm_num
    rw [abs_of_nonneg hpos]
    norm_num
  · rw [hpct]
    have hpos : (0 : ℚ) ≤ (255592 : ℚ) / 524288 * 100 - 4875 / 100 := by norm_num
    rw [abs_of_nonneg hpos]
    norm_num

/-- Witness for the amended C4: a non-string memory field takes the
fallback branch. -/
theorem claim_C4_witness :
    ∃ v, (⟨some JStr.nonstr, some 100, some 40⟩ : SysJson).memory = some v ∧
      ∀ s, v = JStr.str s → parseMemPair s = none :=
  claim_C4_amended.1 ⟨some JStr.nonstr, some 100, some 40⟩ (by decide)

/-- Claim C5, counterexample: the device with the malformed ip 99.99 sorts
after the device with the well-formed ip 10.0.0.5, so malformed ips do not
sort before all well-formed ones. -/
theorem claim_C5_counterexample :
    specWellFormedIp "99.99" = false ∧ specWellFormedIp "10.0.0.5" = true ∧
    devMalformed.ip = some (JStr.str "99.99") ∧
    devWellFormed.ip = some (JStr.str "10.0.0.5") ∧
    update_clients (HttpOutcome.ok 200 (some ⟨some [devMalformed, devWellFormed], 0⟩)) =
      [devWellFormed, devMalformed] := by
  decide

/-- Claim C5, amended: the produced device list is a permutation of the host
array sorted (stably) by the numeric octet-wise ip_sort key; a missing ip is
keyed as 0.0.0.0 and therefore sorts no later than any well-formed ip, and
the concrete example (missing), 10.0.0.5, 10.0.0.20 orders as claimed; a
malformed ip, however, sorts by whichever numeric components it contains and
need not come first. -/
theorem claim_C5_amended :
    (∀ (hosts : List Device) (k : Nat),
        List.Sorted devLe (update_clients (HttpOutcome.ok 200 (some ⟨some hosts, k⟩))) ∧
        (update_clients (HttpOutcome.ok 200 (some ⟨some hosts, k⟩))).Perm hosts) ∧
    (∀ d : Device, d.ip = none → ip_sort d = [0, 0, 0, 0]) ∧
    (∀ (d : Device) (s : String), d.ip = some (JStr.str s) → specWellFormedIp s = true →
        lexLe [0, 0, 0, 0] (ip_sort d) = true) ∧
    update_clients (HttpOutcome.ok 200 (some ⟨some
      [⟨some "a1", some (JStr.str "10.0.0.5"), some true⟩,
       ⟨some "a2", some (JStr.str "10.0.0.20"), some true⟩,
       ⟨some "a3", none, some true⟩], 0⟩)) =
      [⟨some "a3", none, some true⟩,
       ⟨some "a1", some (JStr.str "10.0.0.5"), some true⟩,
       ⟨some "a2", some (JStr.str "10.0.0.20"), some true⟩] := by
  refine ⟨?_, ?_, ?_, by decide⟩
  · intro hosts k
    exact ⟨(update_clients_ok_perm hosts k).2, (update_clients_ok_perm hosts k).1⟩
  · intro d h
    simp only [ip_sort, h]
    decide
  · intro d s hip hwf
    obtain ⟨a, b, c, e, hk⟩ := ipKey_of_wellFormed s hwf
    simp only [ip_sort, hip, hk]
    exact lexLe_zeros4 a b c e

/-- Witness for the amended C5. -/
theorem claim_C5_witness :
    (update_clients (HttpOutcome.ok 200 (some ⟨some [devMalformed, devWellFormed], 0⟩))).Perm
      [devMalformed, devWellFormed] ∧
    ip_sort (⟨some "x", none, none⟩ : Device) = [0, 0, 0, 0] ∧
    lexLe [0, 0, 0, 0] (ip_sort devWellFormed) = true :=
  ⟨(claim_C5_amended.1 [devMalformed, devWellFormed] 0).2,
   claim_C5_amended.2.1 ⟨some "x", none, none⟩ rfl,
   claim_C5_amended.2.2.1 devWellFormed "10.0.0.5" rfl (by decide)⟩

/-- Claim C6, counterexample: a response whose host array holds two distinct
entries with the same mac yields a store containing both, so the store is
not deduplicated by device identity. -/
theorem claim_C6_counterexample :
    update_clients (HttpOutcome.ok 200 (some ⟨some [dupA, dupB], 0⟩)) = [dupA, dupB] ∧
    dupA.mac = some "aa" ∧ dupB.mac = some "aa" ∧ dupA ≠ dupB := by
  decide

/-- Claim C6, amended: after a successful poll the store holds exactly the
entries of the response's host array (as a permutation, sorted by ip); in
particular the per-mac multiplicity of the response is preserved, so
duplicate host entries are kept, not deduplicated. -/
theorem claim_C6_amended :
    ∀ (hosts : List Device) (k : Nat),
      (update_clients (HttpOutcome.ok 200 (some ⟨some hosts, k⟩))).Perm hosts ∧
      ∀ m : Option String,
        (update_clients (HttpOutcome.ok 200 (some ⟨some hosts, k⟩))).countP
            (fun d => d.mac == m) =
          hosts.countP (fun d => d.mac == m) := by
  intro hosts k
  exact ⟨(update_clients_ok_perm hosts k).1,
    fun m => (update_clients_ok_perm hosts k).1.countP_eq _⟩

/-- Claim C7: the submitted digest is the lowercase-hex SHA-256 of the
challenge concatenated with the lowercase-hex MD5 of login, realm and
password joined by colons; the computation is deterministic; keen_auth
posts exactly this digest on a 401 with both headers present; and the
implementation matches fixed known vectors of MD5, SHA-256 and the combined
digest. -/
theorem claim_C7 :
    (∀ login password realm challenge login2 password2 realm2 challenge2 : String,
        login = login2 → password = password2 → realm = realm2 → challenge = challenge2 →
        authDigest login password realm challenge =
          authDigest login2 password2 realm2 challenge2) ∧
    (∀ login password realm challenge : String,
        authDigest login password realm challenge =
          sha256hex (challenge ++ md5hex (login ++ ":" ++ realm ++ ":" ++ password))) ∧
    (∀ (login password realm challenge : String) (post : Option Nat),
        realm ≠ "" → challenge ≠ "" →
        (keen_auth login password
            (AuthEnv.probe 401 (some realm) (some challenge) post)).2 =
          [NetCall.authProbe,
           NetCall.authPost login (authDigest login password realm challenge)]) ∧
    md5hex "" = "d41d8cd98f00b204e9800998ecf8427e" ∧
    md5hex "abc" = "900150983cd24fb0d6963f7d28e17f72" ∧
    sha256hex "abc" =
      "ba7816bf8f01cfea414140de5dae2223b00361a396177a9cb410ff61f20015ad" ∧
    authDigest "admin" "pass" "Keenetic" "deadbeef" =
      "8ecd136e0dbb83ee4d9b876ce53b2f8e4d6dc3fca5f79755a37e3b392c42f244" := by
  refine ⟨?_, fun _ _ _ _ => rfl, ?_, by decide, by decide, by decide, by decide⟩
  · intro l p r c l2 p2 r2 c2 h1 h2 h3 h4
    subst h1; subst h2; subst h3; subst h4
    rfl
  · intro login password realm challenge post hr hc
    have hr2 : (realm == "") = false := beq_eq_false_iff_ne.mpr hr
    have hc2 : (challenge == "") = false := beq_eq_false_iff_ne.mpr hc
    cases post with
    | none => simp [keen_auth, hr2, hc2]
    | some s2 => simp [keen_auth, hr2, hc2]

/-- Witness for C7 at the fixed vector. -/
theorem claim_C7_witness :
    (keen_auth "admin" "pass"
        (AuthEnv.probe 401 (some "Keenetic") (some "deadbeef") (some 200))).2 =
      [NetCall.authProbe,
       NetCall.authPost "admin" (authDigest "admin" "pass" "Keenetic" "deadbeef")] :=
  claim_C7.2.2.1 "admin" "pass" "Keenetic" "deadbeef" (some 200)
    (by decide) (by decide)

/-- Claim C8, counterexample: a 300 response (non-2xx, below the
raise_for_status range) carrying a valid JSON body is returned as that body,
not as the empty mapping. -/
theorem claim_C8_counterexample :
    (keen_get emptyDL "device-list" (HttpOutcome.ok 300 (some c8body))).1 = c8body ∧
    c8body ≠ emptyDL := by
  decide

/-- Claim C8, amended: keen_get is a total function (it never raises) and
returns the empty mapping on every transport error, on every status in the
raise_for_status range 400 to 599, and on every body that fails JSON
parsing; a sub-400 status with a parseable body is returned as-is. -/
theorem claim_C8_amended :
    ∀ (α : Type) (emptyDict : α) (path : String) (o : HttpOutcome α),
      (o = HttpOutcome.netError → (keen_get emptyDict path o).1 = emptyDict) ∧
      (∀ st body, o = HttpOutcome.ok st body → 400 ≤ st → st < 600 →
          (keen_get emptyDict path o).1 = emptyDict) ∧
      (∀ st, o = HttpOutcome.ok st none → (keen_get emptyDict path o).1 = emptyDict) := by
  intro α emptyDict path o
  refine ⟨?_, ?_, ?_⟩
  · rintro rfl
    rfl
  · rintro st body rfl h4 h6
    simp only [keen_get]
    rw [if_pos (⟨h4, h6⟩ : 400 ≤ st ∧ st < 600)]
  · rintro st rfl
    simp only [keen_get]
    split
    · rfl
    · rfl

/-- Witness for the amended C8 on all three failure shapes. -/
theorem claim_C8_witness :
    (keen_get emptyDL "system" HttpOutcome.netError).1 = emptyDL ∧
    (keen_get emptyDL "system" (HttpOutcome.ok 500 (some c8body))).1 = emptyDL ∧
    (keen_get emptyDL "system" (HttpOutcome.ok 200 (none : Option DLJson))).1 = emptyDL :=
  ⟨(claim_C8_amended DLJson emptyDL "system" HttpOutcome.netError).1 rfl,
   (claim_C8_amended DLJson emptyDL "system" (HttpOutcome.ok 500 (some c8body))).2.1
     500 (some c8body) rfl (by decide) (by decide),
   (claim_C8_amended DLJson emptyDL "system" (HttpOutcome.ok 200 none)).2.2 200 rfl⟩

/-- Claim C9: on a 401 probe response with the realm or the challenge header
missing or empty, keen_auth returns false and its network trace is the probe
alone: the POST is never attempted. -/
theorem claim_C9 :
    ∀ (login password : String) (realm challenge : Option String) (post : Option Nat),
      (realm = none ∨ realm = some "" ∨ challenge = none ∨ challenge = some "") →
      keen_auth login password (AuthEnv.probe 401 realm challenge post) =
        (false, [NetCall.authProbe]) := by
  intro login password realm challenge post h
  rcases h with h | h | h | h <;> subst h <;> simp [keen_auth]

/-- Witness for C9 with a missing realm header. -/
theorem claim_C9_witness :
    keen_auth "l" "p" (AuthEnv.probe 401 none (some "x") (some 200)) =
      (false, [NetCall.authProbe]) :=
  claim_C9 "l" "p" none (some "x") (some 200) (Or.inl rfl)

/-- Claim C10: when the sorted device list is a block of mac-bearing devices
followed by an entry without a mac and then arbitrary devices, the cycle's
diff stops at the faulty entry: the events and map updates of the prefix
stand, the faulty entry and everything after it are neither compared nor
updated, the error is absorbed at the cycle boundary, and the monitor loop
proceeds to the next cycle with the partially updated map. -/
theorem claim_C10 :
    ∀ (good : List Device) (bad : Device) (rest : List Device) (prev : PrevMap)
      (o : HttpOutcome DLJson) (os : List (HttpOutcome DLJson)),
      (∀ d ∈ good, d.mac ≠ none) → bad.mac = none →
      (processDevices (good ++ bad :: rest) prev =
         ⟨(processDevices good prev).events, (processDevices good prev).prev, true⟩ ∧
       (processDevices good prev).errored = false ∧
       run_cycles prev (o :: os) = run_cycles (check_status_change_cycle o prev).prev os) :=
  fun good bad rest prev o os hg hb =>
    ⟨processDevices_break good bad rest prev hg hb,
     processDevices_no_error good prev hg, rfl⟩

/-- Witness for C10 with one good device, one mac-less entry and one device
after it. -/
theorem claim_C10_witness :
    processDevices
        ([⟨some "aa", none, some true⟩] ++ (⟨none, none, some true⟩ : Device) ::
          [⟨some "bb", none, some true⟩]) [("bb", false)] =
      ⟨(processDevices [⟨some "aa", none, some true⟩] [("bb", false)]).events,
       (processDevices [⟨some "aa", none, some true⟩] [("bb", false)]).prev, true⟩ :=
  (claim_C10 [⟨some "aa", none, some true⟩] ⟨none, none, some true⟩
      [⟨some "bb", none, some true⟩] [("bb", false)] HttpOutcome.netError []
      (by decide) rfl).1
